import Mathlib

/-!
Verification of the hello-bot user upsert core.

Shallow embedding of the user-upsert and cache logic of the repository:

* `src/app/database/models/user.py` — the `User` model with its derived
  `full_name` and `display_name` properties;
* `src/app/services/user.py` — `UserService.get_or_create_user`,
  `UserService._update_user_if_changed`, `UserService._create_new_user`,
  `UserService.get_user_by_telegram_id`;
* `src/app/handlers/start.py` — the standalone `get_or_create_user`;
* `src/app/cache.py` — `CacheService.get` / `CacheService.set` with the
  Redis-or-memory fallback.

Database state is modelled as a list of user rows plus the next autoincrement
id.  Timestamps are natural numbers: SQLAlchemy's `onupdate=func.now()` on
`updated_at` is modelled by stamping the current time on every flushed UPDATE,
and `default=func.now()` by stamping creation time on INSERT.  Optional string
columns are `Option String`, so Python's `None` is `none` and the empty string
is `some ""` — distinct values, exactly as the source's `!=` comparisons treat
them.  Side effects against the database are recorded as an explicit operation
trace (`DbOp`), mirroring the `track_database_operation` call sites.
-/

/-- Observed Telegram profile, the relevant fields of aiogram's `types.User`
as read by the service code: `id`, `username`, `first_name`, `last_name`,
`language_code`. -/
structure TelegramUser where
  id : Int
  username : Option String
  first_name : Option String
  last_name : Option String
  language_code : Option String
deriving DecidableEq, Repr

/-- One row of the `users` table (`src/app/database/models/user.py`):
surrogate primary key `id`, unique `telegram_id`, four mutable profile
columns, `is_active`, and the `TimestampMixin` columns. -/
structure User where
  id : Nat
  telegram_id : Int
  username : Option String
  first_name : Option String
  last_name : Option String
  language_code : Option String
  is_active : Bool
  created_at : Nat
  updated_at : Nat
deriving DecidableEq, Repr

/-- The `users` table plus the autoincrement counter for the primary key. -/
structure Store where
  users : List User
  nextId : Nat
deriving DecidableEq, Repr

/-- Lookup `select(User).where(User.telegram_id == tid)` followed by
`scalar_one_or_none()`: the row with the given `telegram_id`, if any. -/
def findByTelegramId (s : Store) (tid : Int) : Option User :=
  s.users.find? (fun u => u.telegram_id == tid)

/-- Database operations traced by `track_database_operation` in
`src/app/services/user.py` (all on table `users`). -/
inductive DbOp
  | selectUsers
  | insertUsers
  | updateUsers
deriving DecidableEq, Repr

/-- A write operation (INSERT or UPDATE, as opposed to SELECT). -/
def DbOp.isWrite : DbOp → Bool
  | .selectUsers => false
  | .insertUsers => true
  | .updateUsers => true

/-- Embeds `UserService._update_user_if_changed` (src/app/services/user.py lines
66–95): compare each of the four mutable fields with strict `!=`, assign the
observed value when they differ, and report whether anything was assigned.
Each step carries the row mutated so far and the `updated` flag. -/
def update_user_if_changed (user : User) (tu : TelegramUser) : User × Bool :=
  let s1 := if user.username ≠ tu.username then
      ({ user with username := tu.username }, true) else (user, false)
  let s2 := if s1.1.first_name ≠ tu.first_name then
      ({ s1.1 with first_name := tu.first_name }, true) else s1
  let s3 := if s2.1.last_name ≠ tu.last_name then
      ({ s2.1 with last_name := tu.last_name }, true) else s2
  let s4 := if s3.1.language_code ≠ tu.language_code then
      ({ s3.1 with language_code := tu.language_code }, true) else s3
  s4

/-- Embeds `UserService._create_new_user` (src/app/services/user.py lines 97–118):
build a row from the observed fields with `is_active=True`, add it to the
session and flush, which assigns the next primary key and stamps both
timestamps with the current time. -/
def create_new_user (s : Store) (now : Nat) (tu : TelegramUser) : Store × User :=
  let user : User :=
    { id := s.nextId, telegram_id := tu.id, username := tu.username,
      first_name := tu.first_name, last_name := tu.last_name,
      language_code := tu.language_code, is_active := true,
      created_at := now, updated_at := now }
  ({ users := s.users ++ [user], nextId := s.nextId + 1 }, user)

/-- Flushing an UPDATE of the row whose `telegram_id` matches: the ORM writes
the mutated object back over the row it was loaded from. -/
def replaceByTelegramId (users : List User) (tid : Int) (u : User) : List User :=
  users.map (fun v => if v.telegram_id == tid then u else v)

/-- Embeds `UserService.get_or_create_user` (src/app/services/user.py lines 21–64)
with its database-operation trace: select by `telegram_id`; if found, run
`_update_user_if_changed` and flush (stamping `updated_at`) only when a field
changed; otherwise create a new row.  The Python method returns only the
`User`; the store and the trace are the side effects. -/
def get_or_create_userT (s : Store) (now : Nat) (tu : TelegramUser) :
    Store × User × List DbOp :=
  match findByTelegramId s tu.id with
  | some user =>
      let r := update_user_if_changed user tu
      if r.2 then
        let user3 := { r.1 with updated_at := now }
        ({ s with users := replaceByTelegramId s.users tu.id user3 }, user3,
          [DbOp.selectUsers, DbOp.updateUsers])
      else
        (s, user, [DbOp.selectUsers])
  | none =>
      let r := create_new_user s now tu
      (r.1, r.2, [DbOp.selectUsers, DbOp.insertUsers])

/-- Caller view of `UserService.get_or_create_user`: the resulting
store state and the returned `User` (and nothing else — the Python function's
return value is the single `User` object). -/
def get_or_create_user (s : Store) (now : Nat) (tu : TelegramUser) :
    Store × User :=
  ((get_or_create_userT s now tu).1, (get_or_create_userT s now tu).2.1)

/-- The standalone `get_or_create_user` of `src/app/handlers/start.py` (lines
18–58), transcribed separately with its inline field-by-field update chain. -/
def start_get_or_create_user (s : Store) (now : Nat) (tu : TelegramUser) :
    Store × User :=
  match findByTelegramId s tu.id with
  | some user =>
      let s1 := if user.username ≠ tu.username then
          ({ user with username := tu.username }, true) else (user, false)
      let s2 := if s1.1.first_name ≠ tu.first_name then
          ({ s1.1 with first_name := tu.first_name }, true) else s1
      let s3 := if s2.1.last_name ≠ tu.last_name then
          ({ s2.1 with last_name := tu.last_name }, true) else s2
      let s4 := if s3.1.language_code ≠ tu.language_code then
          ({ s3.1 with language_code := tu.language_code }, true) else s3
      if s4.2 then
        let user3 := { s4.1 with updated_at := now }
        ({ s with users := replaceByTelegramId s.users tu.id user3 }, user3)
      else
        (s, user)
  | none =>
      let user : User :=
        { id := s.nextId, telegram_id := tu.id, username := tu.username,
          first_name := tu.first_name, last_name := tu.last_name,
          language_code := tu.language_code, is_active := true,
          created_at := now, updated_at := now }
      ({ users := s.users ++ [user], nextId := s.nextId + 1 }, user)

/-!
Derived names (`src/app/database/models/user.py`).

Python truthiness drives both properties: `None` and `""` are falsy, every
other string truthy.
-/

/-- Python truthiness of an optional string: `None` and `""` are falsy. -/
def pyTruthy : Option String → Bool
  | none => false
  | some s => !(s == "")

/-- Python `a or b` on strings, where `a` may come from an optional field
already collapsed to a string (empty when absent). -/
def pyOrStr (a b : String) : String :=
  if a == "" then b else a

/-- Embeds `User.full_name` (src/app/database/models/user.py lines 56–60):
`" ".join(part for part in [first_name, last_name] if part)` — join the
truthy parts with a single space. -/
def full_name (u : User) : String :=
  String.intercalate " " (([u.first_name, u.last_name].filter pyTruthy).filterMap id)

/-- Embeds `User.display_name` (src/app/database/models/user.py lines 62–65):
`self.username or self.full_name or f"User{self.telegram_id}"` under Python
`or` (first truthy value wins; `None` and `""` are falsy). -/
def display_name (u : User) : String :=
  pyOrStr (u.username.getD "") (pyOrStr (full_name u) ("User" ++ toString u.telegram_id))

/-- The display-name rule exactly as the claim words it: the username when
present (i.e. not absent), otherwise the name parts joined by a space with
empty parts omitted, otherwise `"User" ++ external_id`.  Written from the
claim text, to be compared against `display_name` from the source. -/
def claim_display_name (u : User) : String :=
  match u.username with
  | some s => s
  | none => if full_name u == "" then "User" ++ toString u.telegram_id else full_name u

/-- The claim's display-name rule amended at the single point the code
refutes it: a username that is present but EMPTY is skipped like an absent
one (Python truthiness), and the fallback chain applies. -/
def claim_display_name_amended (u : User) : String :=
  match u.username with
  | some s =>
      if s == "" then
        (if full_name u == "" then "User" ++ toString u.telegram_id else full_name u)
      else s
  | none => if full_name u == "" then "User" ++ toString u.telegram_id else full_name u

/-!
Cache layer (`src/app/cache.py`).

`CacheService` holds a Redis client and an in-process dictionary
`_memory_cache`.  The Redis backend is modelled as an oracle function the
service calls: its result is either a value (`ok`) or a raised exception
(`err`), covering connection and serialization errors alike.  The paired
flags `_redis_available and self._redis_client` are modelled as the single
boolean `redis_available`, since `initialize` sets both together.  The
in-memory dictionary is an association list keyed by string; note it carries
no expiry information, exactly like the Python `dict`. -/

/-- Outcome of a call into the Redis client: a result, or a raised
exception with its message. -/
inductive RedisResult (α : Type)
  | ok (value : α)
  | err (msg : String)
deriving DecidableEq, Repr

/-- The `CacheService` state: whether Redis is connected, and the in-process
fallback dictionary `_memory_cache`. -/
structure CacheState (α : Type) where
  redis_available : Bool
  memory : List (String × α)
deriving DecidableEq, Repr

/-- Python `dict` lookup `d.get(key)` on the association-list model. -/
def dictGet {α : Type} (mem : List (String × α)) (key : String) : Option α :=
  (mem.find? (fun p => p.1 == key)).map (fun p => p.2)

/-- Python `dict` assignment `d[key] = v` on the association-list model. -/
def dictSet {α : Type} (mem : List (String × α)) (key : String) (v : α) :
    List (String × α) :=
  (key, v) :: mem.filter (fun p => !(p.1 == key))

/-- Embeds `CacheService.get` (src/app/cache.py lines 69–90): when Redis is
available, ask Redis and deserialize; if Redis raises, fall back to the
memory dictionary; when Redis is unavailable, use the memory dictionary
directly.  `redis_get` is the Redis backend's behaviour at this moment
(already including `pickle.loads`). -/
def CacheService.get {α : Type} (st : CacheState α)
    (redis_get : String → RedisResult (Option α)) (key : String) : Option α :=
  if st.redis_available then
    match redis_get key with
    | .ok d => d
    | .err _ => dictGet st.memory key
  else
    dictGet st.memory key

/-- Embeds `CacheService.set` (src/app/cache.py lines 92–119): when Redis is
available, serialize and `SET key value EX ttl`; if Redis raises, store the
value in the memory dictionary and return `false`; when Redis is
unavailable, store in the memory dictionary and return `true`.  The memory
path never looks at `ttl`. -/
def CacheService.set {α : Type} (st : CacheState α)
    (redis_set : String → α → Option Nat → RedisResult Unit)
    (key : String) (value : α) (ttl : Option Nat) : CacheState α × Bool :=
  if st.redis_available then
    match redis_set key value ttl with
    | .ok _ => (st, true)
    | .err _ => ({ st with memory := dictSet st.memory key value }, false)
  else
    ({ st with memory := dictSet st.memory key value }, true)

/-!
Cached lookup (`src/app/services/user.py` lines 120–146).

`get_user_by_telegram_id` goes through the global `cache_service`.  For this
path the cache is abstracted to the key-value map it implements, and every
interaction (cache read, database SELECT, cache write with its ttl argument)
is recorded in an operation trace. -/

/-- The operations `get_user_by_telegram_id` can perform, in order. -/
inductive CacheOp
  | cacheGet (key : String)
  | dbSelect (tid : Int)
  | cacheSet (key : String) (ttl : Nat)
deriving DecidableEq, Repr

/-- The derived cache key `f"user:telegram_id:{telegram_id}"`. -/
def cache_key (tid : Int) : String :=
  "user:telegram_id:" ++ toString tid

/-- Embeds `UserService.get_user_by_telegram_id` (src/app/services/user.py lines
120–146): try the cache under the derived key; on a hit return the cached
user; on a miss run the SELECT, and when a row is found write it back into
the cache with `ttl=300` before returning it.  Returns the result, the
resulting cache contents, and the trace of operations performed. -/
def get_user_by_telegram_id (cache : List (String × User)) (s : Store)
    (tid : Int) : Option User × List (String × User) × List CacheOp :=
  let key := cache_key tid
  match dictGet cache key with
  | some u => (some u, cache, [CacheOp.cacheGet key])
  | none =>
      match findByTelegramId s tid with
      | some user =>
          (some user, dictSet cache key user,
            [CacheOp.cacheGet key, CacheOp.dbSelect tid, CacheOp.cacheSet key 300])
      | none => (none, cache, [CacheOp.cacheGet key, CacheOp.dbSelect tid])

/-!
Concrete fixtures used by counterexamples and witnesses.
-/

/-- A concrete observed Telegram profile. -/
def tuEx : TelegramUser :=
  ⟨42, some "alice", some "Ann", none, some "en"⟩

/-- The store before any user has been seen (autoincrement starts at 1). -/
def emptyStore : Store :=
  ⟨[], 1⟩

/-- The row that storing `tuEx` in `emptyStore` at time 0 produces. -/
def uEx : User :=
  ⟨1, 42, some "alice", some "Ann", none, some "en", true, 0, 0⟩

/-- A store already holding `uEx`. -/
def storeEx : Store :=
  ⟨[uEx], 2⟩

/-- A cache already holding `uEx` under its derived key. -/
def cacheEx : List (String × User) :=
  [(cache_key 42, uEx)]

/-- A row whose username is present but empty (`some ""`). -/
def uEmptyUsername : User :=
  ⟨1, 7, some "", some "Ann", none, none, true, 0, 0⟩

/-- A Redis backend whose reads always raise (values of type `Nat`). -/
def redisGetDown : String → RedisResult (Option Nat) :=
  fun _ => RedisResult.err "connection refused"

/-- A Redis backend whose writes always raise (values of type `Nat`). -/
def redisSetDown : String → Nat → Option Nat → RedisResult Unit :=
  fun _ _ _ => RedisResult.err "connection refused"

/-- A cache state that believes Redis is connected, with one memory entry. -/
def cacheStEx : CacheState Nat :=
  ⟨true, [("k", 5)]⟩

/-- A cache state with Redis unavailable and empty memory. -/
def memOnlyStEx : CacheState Nat :=
  ⟨false, []⟩

/-!
Helper lemmas shared by the claim theorems.
-/

/-- Running `_update_user_if_changed` never touches the primary key, the
`telegram_id`, `is_active` or the timestamps. -/
lemma update_user_if_changed_frame (u : User) (tu : TelegramUser) :
    (update_user_if_changed u tu).1.id = u.id
    ∧ (update_user_if_changed u tu).1.telegram_id = u.telegram_id
    ∧ (update_user_if_changed u tu).1.is_active = u.is_active
    ∧ (update_user_if_changed u tu).1.created_at = u.created_at
    ∧ (update_user_if_changed u tu).1.updated_at = u.updated_at := by
  unfold update_user_if_changed
  by_cases h1 : u.username = tu.username <;>
  by_cases h2 : u.first_name = tu.first_name <;>
  by_cases h3 : u.last_name = tu.last_name <;>
  by_cases h4 : u.language_code = tu.language_code <;>
  simp [h1, h2, h3, h4]

/-- A row whose `telegram_id` differs from the updated key survives an
UPDATE flush untouched. -/
lemma mem_replaceByTelegramId_of_ne (users : List User) (tid : Int) (w v : User)
    (hv : v ∈ users) (hne : v.telegram_id ≠ tid) :
    v ∈ replaceByTelegramId users tid w := by
  unfold replaceByTelegramId
  refine List.mem_map.mpr ⟨v, hv, ?_⟩
  simp [hne]

/-- If the SELECT finds a row for the key, then after writing `w` (which
still carries the key) over that row, the SELECT finds `w`. -/
lemma find?_replaceByTelegramId (users : List User) (tid : Int) (w : User)
    (hw : (w.telegram_id == tid) = true) (u : User)
    (hu : users.find? (fun v => v.telegram_id == tid) = some u) :
    (replaceByTelegramId users tid w).find? (fun v => v.telegram_id == tid)
      = some w := by
  induction users with
  | nil => simp at hu
  | cons a l ih =>
      unfold replaceByTelegramId at *
      by_cases h : (a.telegram_id == tid) = true
      · simp only [List.map_cons]
        rw [if_pos (by simpa using h)]
        exact List.find?_cons_of_pos _ hw
      · rw [List.find?_cons_of_neg _ (by simpa using h)] at hu
        simp only [List.map_cons]
        rw [if_neg (by simpa using h)]
        rw [List.find?_cons_of_neg _ (by simpa using h)]
        exact ih hu

/-- Writing a key into the memory dictionary makes a lookup of that key
return the written value. -/
lemma dictGet_dictSet {α : Type} (mem : List (String × α)) (key : String) (v : α) :
    dictGet (dictSet mem key v) key = some v := by
  simp [dictGet, dictSet]

/-!
Claim theorems.
-/

/-- Claim C1: for every observed profile whose `telegram_id` has no record
in the store, `get_or_create_user` inserts exactly one new record (the store
becomes the old rows plus that single row) whose `username`, `first_name`,
`last_name` and `language_code` equal the observed fields, whose
`telegram_id` equals the observed external id, and whose `is_active` is
true, and returns that record; the trace shows one SELECT and one INSERT. -/
theorem C1_create_inserts_once (s : Store) (now : Nat) (tu : TelegramUser)
    (h : findByTelegramId s tu.id = none) :
    (get_or_create_userT s now tu).1.users
        = s.users ++ [(get_or_create_userT s now tu).2.1]
    ∧ (get_or_create_userT s now tu).2.1.telegram_id = tu.id
    ∧ (get_or_create_userT s now tu).2.1.username = tu.username
    ∧ (get_or_create_userT s now tu).2.1.first_name = tu.first_name
    ∧ (get_or_create_userT s now tu).2.1.last_name = tu.last_name
    ∧ (get_or_create_userT s now tu).2.1.language_code = tu.language_code
    ∧ (get_or_create_userT s now tu).2.1.is_active = true
    ∧ (get_or_create_userT s now tu).2.2 = [DbOp.selectUsers, DbOp.insertUsers] := by
  simp [get_or_create_userT, create_new_user, h]

/-- Witness for C1 at the concrete profile `tuEx` on the empty store. -/
theorem C1_create_inserts_once_witness :
    (get_or_create_userT emptyStore 0 tuEx).1.users
        = emptyStore.users ++ [(get_or_create_userT emptyStore 0 tuEx).2.1]
    ∧ (get_or_create_userT emptyStore 0 tuEx).2.1.telegram_id = tuEx.id
    ∧ (get_or_create_userT emptyStore 0 tuEx).2.1.username = tuEx.username
    ∧ (get_or_create_userT emptyStore 0 tuEx).2.1.first_name = tuEx.first_name
    ∧ (get_or_create_userT emptyStore 0 tuEx).2.1.last_name = tuEx.last_name
    ∧ (get_or_create_userT emptyStore 0 tuEx).2.1.language_code = tuEx.language_code
    ∧ (get_or_create_userT emptyStore 0 tuEx).2.1.is_active = true
    ∧ (get_or_create_userT emptyStore 0 tuEx).2.2
        = [DbOp.selectUsers, DbOp.insertUsers] :=
  C1_create_inserts_once emptyStore 0 tuEx rfl

/-- Claim C2: calling `get_or_create_user` when the stored record's four
mutable fields already equal the observed fields performs no write: the
store is unchanged, the record (its `updated_at` included) is returned
exactly as stored, and the trace holds the SELECT only. -/
theorem C2_second_call_no_write (s : Store) (now : Nat) (tu : TelegramUser)
    (u : User) (hfind : findByTelegramId s tu.id = some u)
    (h1 : u.username = tu.username) (h2 : u.first_name = tu.first_name)
    (h3 : u.last_name = tu.last_name) (h4 : u.language_code = tu.language_code) :
    get_or_create_userT s now tu = (s, u, [DbOp.selectUsers]) := by
  simp [get_or_create_userT, update_user_if_changed, hfind, h1, h2, h3, h4]

/-- Witness for C2: a repeat call for `tuEx` against the store that already
holds its record leaves everything unchanged. -/
theorem C2_second_call_no_write_witness :
    get_or_create_userT storeEx 9 tuEx = (storeEx, uEx, [DbOp.selectUsers]) :=
  C2_second_call_no_write storeEx 9 tuEx uEx rfl rfl rfl rfl rfl

/-- Claim C3: `_update_user_if_changed` reports `true` exactly when at least
one of the four mutable fields differs under strict inequality on optional
strings (so `none` and `some ""` are distinct values, and a transition
between them counts as a difference), and afterwards each of the four
fields equals the observed value. -/
theorem C3_change_detection (u : User) (tu : TelegramUser) :
    ((update_user_if_changed u tu).2 = true ↔
      (u.username ≠ tu.username ∨ u.first_name ≠ tu.first_name ∨
       u.last_name ≠ tu.last_name ∨ u.language_code ≠ tu.language_code))
    ∧ (update_user_if_changed u tu).1.username = tu.username
    ∧ (update_user_if_changed u tu).1.first_name = tu.first_name
    ∧ (update_user_if_changed u tu).1.last_name = tu.last_name
    ∧ (update_user_if_changed u tu).1.language_code = tu.language_code := by
  unfold update_user_if_changed
  by_cases h1 : u.username = tu.username <;>
  by_cases h2 : u.first_name = tu.first_name <;>
  by_cases h3 : u.last_name = tu.last_name <;>
  by_cases h4 : u.language_code = tu.language_code <;>
  simp [h1, h2, h3, h4]

/-- Claim C5: a call that finds an existing record leaves its `id`,
`telegram_id`, `is_active` and `created_at` unchanged, keeps every record
with a different `telegram_id` in the store untouched (same row count, same
autoincrement counter), and performs at most one write. -/
theorem C5_existing_frame (s : Store) (now : Nat) (tu : TelegramUser)
    (u : User) (hfind : findByTelegramId s tu.id = some u) :
    (get_or_create_userT s now tu).2.1.id = u.id
    ∧ (get_or_create_userT s now tu).2.1.telegram_id = u.telegram_id
    ∧ (get_or_create_userT s now tu).2.1.is_active = u.is_active
    ∧ (get_or_create_userT s now tu).2.1.created_at = u.created_at
    ∧ (get_or_create_userT s now tu).1.users.length = s.users.length
    ∧ (get_or_create_userT s now tu).1.nextId = s.nextId
    ∧ (∀ v ∈ s.users, v.telegram_id ≠ tu.id →
        v ∈ (get_or_create_userT s now tu).1.users)
    ∧ (((get_or_create_userT s now tu).2.2.filter DbOp.isWrite).length ≤ 1) := by
  have hframe := update_user_if_changed_frame u tu
  unfold get_or_create_userT
  rw [hfind]
  dsimp only
  split
  · refine ⟨hframe.1, hframe.2.1, hframe.2.2.1, hframe.2.2.2.1, ?_, rfl, ?_, ?_⟩
    · simp [replaceByTelegramId]
    · intro v hv hne
      exact mem_replaceByTelegramId_of_ne s.users tu.id _ v hv hne
    · simp [DbOp.isWrite]
  · exact ⟨rfl, rfl, rfl, rfl, rfl, rfl, fun v hv _ => hv, by simp [DbOp.isWrite]⟩

/-- Witness for C5 at the concrete store holding `uEx`. -/
theorem C5_existing_frame_witness :
    (get_or_create_userT storeEx 9 tuEx).2.1.created_at = uEx.created_at
    ∧ (get_or_create_userT storeEx 9 tuEx).1.users.length = storeEx.users.length
    ∧ (((get_or_create_userT storeEx 9 tuEx).2.2.filter DbOp.isWrite).length ≤ 1) :=
  ⟨(C5_existing_frame storeEx 9 tuEx uEx rfl).2.2.2.1,
   (C5_existing_frame storeEx 9 tuEx uEx rfl).2.2.2.2.1,
   (C5_existing_frame storeEx 9 tuEx uEx rfl).2.2.2.2.2.2.2⟩

/-- Claim C4, counterexample: the claim says the function returns a
`wasCreated` flag alongside the record, true exactly when a record was
created.  The Python method returns only the `User` object.  Concretely:
the first call on the empty store creates a record (row count goes from 0
to 1) and the second call does not (row count stays 1), yet the two calls
return exactly the same value — so the return value contains no component
that is true exactly on creation. -/
theorem C4_no_flag_counterexample :
    (get_or_create_user emptyStore 0 tuEx).2
      = (get_or_create_user (get_or_create_user emptyStore 0 tuEx).1 0 tuEx).2
    ∧ (get_or_create_user emptyStore 0 tuEx).1.users.length = 1
    ∧ (get_or_create_user (get_or_create_user emptyStore 0 tuEx).1 0 tuEx).1.users.length
        = 1 := by
  decide

/-- Claim C4 as amended: `get_or_create_user` returns only the resulting
user record — the record stored under the observed `telegram_id` after the
call — with no created/updated flag in the return value. -/
theorem C4_returns_stored_record (s : Store) (now : Nat) (tu : TelegramUser) :
    findByTelegramId (get_or_create_user s now tu).1 tu.id
      = some (get_or_create_user s now tu).2 := by
  unfold get_or_create_user get_or_create_userT
  cases hfind : findByTelegramId s tu.id with
  | none =>
      unfold findByTelegramId at *
      dsimp only [create_new_user]
      rw [List.find?_append, hfind]
      simp
  | some u =>
      dsimp only
      split
      · unfold findByTelegramId at *
        dsimp only
        exact find?_replaceByTelegramId s.users tu.id _ (by
          have := (update_user_if_changed_frame u tu).2.1
          have hu : (u.telegram_id == tu.id) = true := by
            have := List.find?_some hfind
            simpa using this
          simpa [this] using hu) u hfind
      · exact hfind

/-- Claim C6, counterexample: the claim reads "the username (handle) when
present"; a username that is present but empty (`some ""`) refutes it — the
code's Python `or` skips the empty string and falls through to the name
parts, while the claimed rule returns the empty username. -/
theorem C6_empty_username_counterexample :
    display_name uEmptyUsername = "Ann"
    ∧ claim_display_name uEmptyUsername = "" := by
  decide

/-- Claim C6 as amended: `display_name` equals the username when it is
present AND non-empty (an empty username is skipped like an absent one);
otherwise the name parts joined by a single space with absent/empty parts
omitted; otherwise `"User"` followed by the external id. -/
theorem C6_display_name_amended_thm (u : User) :
    display_name u = claim_display_name_amended u := by
  cases h : u.username with
  | none => simp [display_name, claim_display_name_amended, pyOrStr, h]
  | some s =>
      by_cases hs : s = "" <;>
        simp [display_name, claim_display_name_amended, pyOrStr, h, hs]

/-- Claim C7: `get_user_by_telegram_id` returns the cached record without
issuing any store query when the cache holds an entry for the derived key
(the trace is the single cache read); on a miss it queries the store, and
when a record is found it writes it back into the cache with a 300-second
expiry before returning it. -/
theorem C7_cached_lookup (cache : List (String × User)) (s : Store) (tid : Int) :
    (∀ u, dictGet cache (cache_key tid) = some u →
        get_user_by_telegram_id cache s tid
          = (some u, cache, [CacheOp.cacheGet (cache_key tid)]))
    ∧ (∀ w, dictGet cache (cache_key tid) = none →
        findByTelegramId s tid = some w →
        get_user_by_telegram_id cache s tid
          = (some w, dictSet cache (cache_key tid) w,
              [CacheOp.cacheGet (cache_key tid), CacheOp.dbSelect tid,
               CacheOp.cacheSet (cache_key tid) 300])) := by
  constructor
  · intro u hu
    simp [get_user_by_telegram_id, hu]
  · intro w hnone hdb
    simp [get_user_by_telegram_id, hnone, hdb]

/-- Witness for C7: a hit on the populated cache performs no store query,
and a miss on the empty cache queries the store and writes back with
`ttl=300`. -/
theorem C7_cached_lookup_witness :
    get_user_by_telegram_id cacheEx emptyStore 42
      = (some uEx, cacheEx, [CacheOp.cacheGet (cache_key 42)])
    ∧ get_user_by_telegram_id [] storeEx 42
      = (some uEx, dictSet [] (cache_key 42) uEx,
          [CacheOp.cacheGet (cache_key 42), CacheOp.dbSelect 42,
           CacheOp.cacheSet (cache_key 42) 300]) :=
  ⟨(C7_cached_lookup cacheEx emptyStore 42).1 uEx rfl,
   (C7_cached_lookup [] storeEx 42).2 uEx rfl rfl⟩

/-- Claim C8: whenever the Redis backend raises, `CacheService.get` answers
from the in-memory dictionary instead of raising, and `CacheService.set`
stores into the in-memory dictionary and reports `false` instead of raising
(both embedded functions are total — no error value ever reaches the
caller, so a cached-lookup caller can only see store errors). -/
theorem C8_error_fallback {α : Type} (st : CacheState α)
    (redis_get : String → RedisResult (Option α))
    (redis_set : String → α → Option Nat → RedisResult Unit)
    (key : String) (v : α) (ttl : Option Nat) (e1 e2 : String)
    (hg : redis_get key = RedisResult.err e1)
    (hs : redis_set key v ttl = RedisResult.err e2) :
    CacheService.get st redis_get key = dictGet st.memory key
    ∧ CacheService.set st redis_set key v ttl
        = ({ st with memory := dictSet st.memory key v }, !st.redis_available) := by
  cases h : st.redis_available <;>
    simp [CacheService.get, CacheService.set, h, hg, hs]

/-- Witness for C8 with a Redis backend that always raises. -/
theorem C8_error_fallback_witness :
    CacheService.get cacheStEx redisGetDown "k" = dictGet cacheStEx.memory "k"
    ∧ CacheService.set cacheStEx redisSetDown "k" 5 (some 300)
        = ({ cacheStEx with memory := dictSet cacheStEx.memory "k" 5 },
            !cacheStEx.redis_available) :=
  C8_error_fallback cacheStEx redisGetDown redisSetDown "k" 5 (some 300)
    "connection refused" "connection refused" rfl rfl

/-- Claim C9: the standalone `get_or_create_user` of `handlers/start.py`
and `UserService.get_or_create_user` of `services/user.py` are behaviorally
equivalent — for every initial store and observed profile they produce the
same resulting store and return the same record. -/
theorem C9_handler_service_equiv (s : Store) (now : Nat) (tu : TelegramUser) :
    start_get_or_create_user s now tu = get_or_create_user s now tu := by
  unfold start_get_or_create_user get_or_create_user get_or_create_userT
      update_user_if_changed create_new_user
  cases hfind : findByTelegramId s tu.id with
  | none => rfl
  | some u =>
      by_cases h1 : u.username = tu.username <;>
      by_cases h2 : u.first_name = tu.first_name <;>
      by_cases h3 : u.last_name = tu.last_name <;>
      by_cases h4 : u.language_code = tu.language_code <;>
      simp [h1, h2, h3, h4]

/-- Claim C10: on the memory-fallback path (Redis unavailable, or the Redis
write raising) `CacheService.set` stores the value in the in-process
dictionary and ignores `ttl` entirely — the result is identical for any two
ttl arguments — and a later `CacheService.get` that reaches the memory
dictionary returns the stored value; the dictionary records no expiry, so
nothing ever invalidates the entry with time. -/
theorem C10_memory_ignores_ttl {α : Type} (st : CacheState α)
    (redis_set : String → α → Option Nat → RedisResult Unit)
    (key : String) (v : α) (ttl ttl2 : Option Nat) :
    (st.redis_available = false →
        CacheService.set st redis_set key v ttl
          = CacheService.set st redis_set key v ttl2
        ∧ (CacheService.set st redis_set key v ttl).1
            = { st with memory := dictSet st.memory key v }
        ∧ ∀ redis_get : String → RedisResult (Option α),
            CacheService.get (CacheService.set st redis_set key v ttl).1
              redis_get key = some v)
    ∧ (∀ e e2, st.redis_available = true →
        redis_set key v ttl = RedisResult.err e →
        redis_set key v ttl2 = RedisResult.err e2 →
        CacheService.set st redis_set key v ttl
          = CacheService.set st redis_set key v ttl2
        ∧ (CacheService.set st redis_set key v ttl).1
            = { st with memory := dictSet st.memory key v }
        ∧ ∀ (redis_get : String → RedisResult (Option α)) (e3 : String),
            redis_get key = RedisResult.err e3 →
            CacheService.get (CacheService.set st redis_set key v ttl).1
              redis_get key = some v) := by
  constructor
  · intro hoff
    refine ⟨?_, ?_, ?_⟩
    · simp [CacheService.set, hoff]
    · simp [CacheService.set, hoff]
    · intro redis_get
      simp [CacheService.set, CacheService.get, hoff, dictGet_dictSet]
  · intro e e2 hon hs hs2
    refine ⟨?_, ?_, ?_⟩
    · simp [CacheService.set, hon, hs, hs2]
    · simp [CacheService.set, hon, hs]
    · intro redis_get e3 hg
      simp [CacheService.set, CacheService.get, hon, hs, hg, dictGet_dictSet]

/-- Witness for C10: with Redis unavailable, a set with `ttl=300` equals a
set with no ttl and the value is readable back; with Redis up but the write
raising, the memory dictionary still receives the value. -/
theorem C10_memory_ignores_ttl_witness :
    (CacheService.set memOnlyStEx redisSetDown "k" 7 (some 300)
        = CacheService.set memOnlyStEx redisSetDown "k" 7 none)
    ∧ CacheService.get (CacheService.set memOnlyStEx redisSetDown "k" 7 (some 300)).1
        redisGetDown "k" = some 7
    ∧ (CacheService.set cacheStEx redisSetDown "k" 7 (some 300)).1
        = { cacheStEx with memory := dictSet cacheStEx.memory "k" 7 } :=
  ⟨((C10_memory_ignores_ttl memOnlyStEx redisSetDown "k" 7 (some 300) none).1 rfl).1,
   ((C10_memory_ignores_ttl memOnlyStEx redisSetDown "k" 7 (some 300) none).1 rfl).2.2
     redisGetDown,
   (((C10_memory_ignores_ttl cacheStEx redisSetDown "k" 7 (some 300) none).2
       "connection refused" "connection refused" rfl rfl rfl).2.1)⟩
